import Mathlib

/- Verification of the natural-language specification of mne_addon
   (joint_decorreltaion.py) against a shallow embedding of the code.

   Arrays are embedded untyped, numpy-style: a matrix is a pair of
   dimensions together with a total entry function (entries outside the
   advertised bounds are irrelevant garbage, just as numpy never reads
   them through shape-respecting operations).  Machine floats are
   idealised as rationals; `np.linalg.eig` and `np.sqrt` are oracle
   parameters (`EigFn`, `sq`), since an eigendecomposition has no closed
   executable form.  Concrete theorems instantiate the oracles at inputs
   where their exact values are known: `diagEig` is the true
   eigendecomposition of the diagonal covariances used in the examples,
   and `ratSqrt` agrees with the real square root on perfect squares. -/

/-- A numpy-style 2-D array: advertised shape plus a total entry function. -/
structure Mat where
  rows : ℕ
  cols : ℕ
  entry : ℕ → ℕ → ℚ

/-- A numpy-style 3-D array (trial, channel, sample). -/
structure Ten where
  n0 : ℕ
  n1 : ℕ
  n2 : ℕ
  entry : ℕ → ℕ → ℕ → ℚ

/-- The Python exceptions that the code under analysis can raise. -/
inductive Err where
  | valueError (msg : String)
  | keyError (msg : String)
  | typeError (msg : String)
  | nameError (msg : String)
deriving DecidableEq

/-- Matrix product (`@` in numpy); the inner sum ranges over the left
factor's advertised column count, as numpy's contraction does. -/
def Mat.mul (A B : Mat) : Mat :=
  ⟨A.rows, B.cols, fun i j => ∑ k ∈ Finset.range A.cols, A.entry i k * B.entry k j⟩

/-- Matrix transpose (`.T`). -/
def Mat.transpose (A : Mat) : Mat :=
  ⟨A.cols, A.rows, fun i j => A.entry j i⟩

/-- `np.zeros([r, c])`. -/
def Mat.zero (r c : ℕ) : Mat := ⟨r, c, fun _ _ => 0⟩

/-- `np.diag(1/np.diag(N))` for a square `N`. -/
def diagInvDiag (N : Mat) : Mat :=
  ⟨N.rows, N.rows, fun i j => if i = j then 1 / N.entry i i else 0⟩

/-- `np.tile(np.identity(nT), nTr)`: the sample-sized identity block tiled
once per trial along the column axis (source line 47). -/
def tileId (nT nTr : ℕ) : Mat :=
  ⟨nT, nTr * nT, fun i j => if j % nT = i then 1 else 0⟩

/-- The stage-2 signed bias filter of Difference mode (source lines 52-54):
`+1` identity blocks for the `nA` condition-1 trials followed by `-1`
identity blocks for the `nB` condition-2 trials, concatenated along columns. -/
def signedTile (nT nA nB : ℕ) : Mat :=
  ⟨nT, (nA + nB) * nT, fun i j =>
    if j < nA * nT then (if j % nT = i then 1 else 0)
    else (if j % nT = i then -1 else 0)⟩

/-- `np.concatenate([A, B])` along the trial axis. -/
def Ten.concat0 (A B : Ten) : Ten :=
  ⟨A.n0 + B.n0, A.n1, A.n2, fun i j k =>
    if i < A.n0 then A.entry i j k else B.entry (i - A.n0) j k⟩

/-- Least-squares linear detrend of one sample series of length `n`
(`scipy.signal.detrend(..., type="linear")` on a 1-D series): subtract the
least-squares affine fit over sample indices `0, ..., n-1`. -/
def detrendSeries (n : ℕ) (y : ℕ → ℚ) (i : ℕ) : ℚ :=
  let nn : ℚ := n
  let ybar := (∑ k ∈ Finset.range n, y k) / nn
  let xbar := (nn - 1) / 2
  let sxx := ∑ k ∈ Finset.range n, ((k : ℚ) - xbar) ^ 2
  let sxy := ∑ k ∈ Finset.range n, ((k : ℚ) - xbar) * (y k - ybar)
  y i - (ybar + sxy / sxx * ((i : ℚ) - xbar))

/-- `scipy.signal.detrend(X, axis=-1, type="linear")` on a 3-D array:
per trial and channel, along the sample axis. -/
def detrend3 (T : Ten) : Ten :=
  ⟨T.n0, T.n1, T.n2, fun i j k => detrendSeries T.n2 (T.entry i j) k⟩

/-- The epochs container (the mne collaborator): a (trial, channel, sample)
tensor, the label-to-event-code mapping, per-trial event codes, and the
sampling rate carried through. -/
structure Epochs where
  nTrials : ℕ
  nChannels : ℕ
  nTimes : ℕ
  data : ℕ → ℕ → ℕ → ℚ
  eventId : List (String × ℤ)
  trialCode : ℕ → ℤ
  sfreq : ℚ

/-- The `_data` tensor of an epochs object. -/
def Epochs.dataTen (e : Epochs) : Ten :=
  ⟨e.nTrials, e.nChannels, e.nTimes, e.data⟩

/-- `epochs[condition]`: the sub-epochs of the trials whose event code is
`event_id[condition]`, in their original order.  A label absent from
`event_id` raises `KeyError`; indexing with `None` (possible in
Difference mode when only one condition argument is supplied) is a
`TypeError` in mne. -/
def Epochs.get (e : Epochs) (c? : Option String) : Except Err Epochs :=
  match c? with
  | none => .error (.typeError "epochs indexed with None")
  | some c =>
    match e.eventId.lookup c with
    | none => .error (.keyError c)
    | some code =>
      let idxs := (List.range e.nTrials).filter (fun i => e.trialCode i == code)
      .ok { e with nTrials := idxs.length,
                   data := fun i j k => e.data (idxs.getD i 0) j k,
                   trialCode := fun i => e.trialCode (idxs.getD i 0) }

/-- The flattening convention of the code (source lines 45-46 and the
projection operations): transpose the (trial, channel, sample) tensor to
(channel, trial, sample), reshape to (channel, trial*sample) and take the
transpose, giving a (trial*sample, channel) matrix with the sample index
fastest-varying inside each trial block. -/
def flattenTen (T : Ten) : Mat :=
  ⟨T.n0 * T.n2, T.n1, fun r c => T.entry (r / T.n2) c (r % T.n2)⟩

/-- The inverse reshape used by the projection operations (source lines
65 and 75): a (trial*sample, k) matrix back to a (trial, k, sample) tensor. -/
def unflatten (Y : Mat) (nTr nT : ℕ) : Ten :=
  ⟨nTr, Y.cols, nT, fun i c t => Y.entry (i * nT + t) c⟩

/-- The oracle standing for `np.linalg.eig`: eigenvalues and the matrix
whose columns are eigenvectors, as functions of the input matrix. -/
structure EigFn where
  vals : Mat → (ℕ → ℚ)
  vecs : Mat → (ℕ → ℕ → ℚ)

/-- The exact eigendecomposition of a diagonal matrix: the diagonal as
eigenvalues and identity columns as eigenvectors.  Concrete examples in
this file only apply the eig oracle to diagonal covariances, where this
is the true `np.linalg.eig`. -/
def diagEig : EigFn :=
  ⟨fun C i => C.entry i i, fun _ i j => if i = j then 1 else 0⟩

/-- The integer square root of a perfect square (0 on non-squares),
computed by structural search so that proofs can evaluate it. -/
def exactSqrt (n : ℕ) : ℕ :=
  ((List.range (n + 1)).filter (fun k => k * k = n)).headD 0

/-- An exact rational square root: correct whenever numerator and
denominator are perfect squares, which is the case at every input where
a concrete theorem below depends on its value.  Stands for the real
`np.sqrt`. -/
def ratSqrt (q : ℚ) : ℚ :=
  (exactSqrt q.num.toNat : ℚ) / (exactSqrt q.den : ℚ)

/-- Decidable equality of `Except` results (payloads compared by their
own decidable equality). -/
instance {ε α : Type} [DecidableEq ε] [DecidableEq α] : DecidableEq (Except ε α) :=
  fun x y =>
    match x, y with
    | .ok a, .ok b =>
      if h : a = b then isTrue (by rw [h]) else isFalse (fun hc => h (Except.ok.inj hc))
    | .error a, .error b =>
      if h : a = b then isTrue (by rw [h]) else isFalse (fun hc => h (Except.error.inj hc))
    | .ok _, .error _ => isFalse (fun hc => Except.noConfusion hc)
    | .error _, .ok _ => isFalse (fun hc => Except.noConfusion hc)

/-- `np.argsort(v)[::-1][0:keep]` over indices `0, ..., n-1`: stable
ascending sort of the indices by value, reversed, truncated to `keep`.
numpy slicing clamps: the result has `min keep n` indices. -/
def argsortTake (n keep : ℕ) (v : ℕ → ℚ) : List ℕ :=
  (((List.range n).insertionSort (fun i j => v i ≤ v j)).reverse).take keep

/-- `JointDecorrelation._transform(X, L, keep1, keep2)` (source lines
86-104).  Computes the covariance `C0 = X^T X`, keeps the top `keep1`
eigenpairs, builds the diagonal whitening matrix `N` from
`np.sqrt(1./D)`, spheres the data, applies the bias filter `L`, and
keeps the top `keep2` eigenvectors of the filtered covariance.  The only
possible failure is numpy's shape check at the product `L @ Z`; the
`keep` arguments are silently clamped by slicing and eigenvalue signs are
never checked (a non-positive eigenvalue flows through `sq` unchecked,
as `np.sqrt` only emits a warning). -/
def transform (eig : EigFn) (sq : ℚ → ℚ) (X L : Mat) (keep1 keep2 : ℕ) :
    Except Err (Mat × Mat × Mat) :=
  -- the sphered signal Z has X's row count, so numpy's shape check at
  -- `L @ Z` is the condition `L.cols = X.rows`, hoisted here
  if L.cols = X.rows then
    let C0 := X.transpose.mul X
    let D := eig.vals C0
    let idx := argsortTake C0.rows keep1 D
    let P : Mat := ⟨C0.rows, idx.length, fun i j => eig.vecs C0 i (idx.getD j 0)⟩
    let N : Mat := ⟨idx.length, idx.length,
      fun i j => if i = j then sq (1 / D (idx.getD i 0)) else 0⟩
    let Z := (X.mul P).mul N
    let Zbar := L.mul Z
    let C1 := Zbar.transpose.mul Zbar
    let Dz := eig.vals C1
    let idx2 := argsortTake C1.rows keep2 Dz
    let Q : Mat := ⟨C1.rows, idx2.length, fun i j => eig.vecs C1 i (idx2.getD j 0)⟩
    .ok (P, N, Q)
  else .error (.valueError "matmul shape mismatch")

/-- The `JointDecorrelation` object: its mode string and the nullable
fitted matrices (both `None` until the first `fit`). -/
structure JDModel where
  kind : String
  unmixing : Option Mat
  mixing : Option Mat

/-- `JointDecorrelation.__init__(kind)`. -/
def JDInit (kind : String) : Except Err JDModel :=
  if kind = "evoked" ∨ kind = "difference" then .ok ⟨kind, none, none⟩
  else .error (.valueError "kind must be either evoked or difference!")

/-- Source lines 31-36: when both condition arguments are `None` in
Difference mode, infer them from `event_id`, requiring exactly two event
types; otherwise pass the arguments through unchanged. -/
def inferConds (e : Epochs) (kind : String) (c1? c2? : Option String) :
    Except Err (Option String × Option String) :=
  if c1?.isNone ∧ c2?.isNone ∧ kind = "difference" then
    if e.eventId.length = 2 then
      .ok (some (e.eventId.getD 0 ("", 0)).1, some (e.eventId.getD 1 ("", 0)).1)
    else
      .error (.valueError "If conditions are not specified, epochs must contain exactly two types of events!")
  else .ok (c1?, c2?)

/-- Source lines 38-41: the first binding of `X` inside `fit`.  In Evoked
mode it is the raw tensor; in Difference mode it is
`np.concatenate([epochs[condition1]._data, epochs[condition1]._data])` --
the source concatenates the condition-1 subset with itself.  For any
other `kind` string no branch runs and `X` stays unbound (`none`).
Either way the value is dead: `fit` rebinds `X` to the full raw tensor
before the eigensolver runs. -/
def deadWorkingData (e : Epochs) (kind : String) (c1? : Option String) :
    Except Err (Option Ten) :=
  if kind = "evoked" then .ok (some e.dataTen)
  else if kind = "difference" then
    match e.get c1? with
    | .error err => .error err
    | .ok eA =>
      match e.get c1? with
      | .error err => .error err
      | .ok eA2 => .ok (some (Ten.concat0 eA.dataTen eA2.dataTen))
  else .ok none

/-- Source lines 42-44: the optional detrending of the working data.  Its
result is also dead (discarded by the rebinding of `X` at line 45).  If
`X` is unbound (invalid `kind`) and detrending is requested, Python
raises a `NameError` here. -/
def deadDetrended (x? : Option Ten) (detrending : Bool) : Except Err (Option Ten) :=
  if detrending then
    match x? with
    | none => .error (.nameError "X")
    | some x => .ok (some (detrend3 x))
  else .ok x?

/-- Source lines 45-46: the matrix actually given to the stage-1
eigensolver — the rebinding `X = np.transpose(epochs._data, (1, 0, 2))`
followed by the reshape.  It is built from the full raw input tensor:
neither the condition selection nor the detrending above reaches it. -/
def stage1Data (e : Epochs) : Mat := flattenTen e.dataTen

/-- The stage-1 eigensolver call of `fit` (source lines 47-48):
`_transform` on the flattened raw tensor with the per-trial identity
tiling as bias filter. -/
def stage1 (eig : EigFn) (sq : ℚ → ℚ) (e : Epochs) (keep1 keep2 : ℕ) :
    Except Err (Mat × Mat × Mat) :=
  transform eig sq (stage1Data e) (tileId e.nTimes e.nTrials) keep1 keep2

/-- `JointDecorrelation.fit` (source lines 22-58), as a function from the
pre-call object state to the post-call object state paired with the
raised exception, if any — Python mutates `self` in place, so a failure
after the stage-1 assignments leaves the stage-1 matrices behind. -/
def fitRun (eig : EigFn) (sq : ℚ → ℚ) (m : JDModel) (e : Epochs)
    (keep1? keep2? keep3? : Option ℕ) (c1? c2? : Option String)
    (detrending : Bool) : JDModel × Option Err :=
  let keep1 := keep1?.getD e.nChannels
  let keep2 := keep2?.getD keep1
  let keep3 := keep3?.getD keep2
  match inferConds e m.kind c1? c2? with
  | .error err => (m, some err)
  | .ok (c1?, c2?) =>
    match deadWorkingData e m.kind c1? with
    | .error err => (m, some err)
    | .ok x? =>
      match deadDetrended x? detrending with
      | .error err => (m, some err)
      | .ok _ =>
        match stage1 eig sq e keep1 keep2 with
        | .error err => (m, some err)
        | .ok (P, N, Q) =>
          let W1 := (P.mul N).mul Q
          let M1 := (Q.transpose.mul (diagInvDiag N)).mul P.transpose
          let m1 : JDModel := { m with unmixing := some W1, mixing := some M1 }
          if m.kind = "difference" then
            match e.get c1? with
            | .error err => (m1, some err)
            | .ok eA =>
              match e.get c2? with
              | .error err => (m1, some err)
              | .ok eB =>
                let L2 := signedTile e.nTimes eA.nTrials eB.nTrials
                let Y := (stage1Data e).mul W1
                match transform eig sq Y L2 keep2 keep3 with
                | .error err => (m1, some err)
                | .ok (P2, N2, Q2) =>
                  ({ m with
                      unmixing := some (((W1.mul P2).mul N2).mul Q2),
                      mixing := some (((Q2.transpose.mul (diagInvDiag N2)).mul
                        P2.transpose).mul M1) }, none)
          else (m1, none)

/-- `JointDecorrelation.get_components` (source lines 60-67).  On an
unfitted model `self.unmixing` is `None` and numpy raises a `TypeError`
at `X @ self.unmixing`. -/
def getComponents (m : JDModel) (e : Epochs) : Except Err Epochs :=
  match m.unmixing with
  | none => .error (.typeError "unsupported operand type for matmul: ndarray and NoneType")
  | some U =>
    let X := flattenTen e.dataTen
    let Y := X.mul U
    .ok { e with nChannels := Y.cols,
                 data := (unflatten Y e.nTrials e.nTimes).entry }

/-- `JointDecorrelation.reproject_components` (source lines 69-76):
flatten, apply unmixing, apply mixing, reshape back. -/
def reprojectComponents (m : JDModel) (e : Epochs) : Except Err Epochs :=
  match m.unmixing with
  | none => .error (.typeError "unsupported operand type for matmul: ndarray and NoneType")
  | some U =>
    match m.mixing with
    | none => .error (.typeError "unsupported operand type for matmul: ndarray and NoneType")
    | some M =>
      let X := flattenTen e.dataTen
      let Y := X.mul U
      let R := Y.mul M
      .ok { e with nChannels := R.cols,
                   data := (unflatten R e.nTrials e.nTimes).entry }

/-- Comparator following the words of the specification (section 8):
reprojection is literally unmix-then-mix, i.e. the single combined
linear map `unmixing * mixing` applied to the flattened input, reshaped
back by the same convention. -/
def reprojectSpec (U M : Mat) (e : Epochs) : Epochs :=
  let X := flattenTen e.dataTen
  let R := X.mul (U.mul M)
  { e with nChannels := R.cols,
           data := (unflatten R e.nTrials e.nTimes).entry }

/-- `Y.average().data` in mne: per (channel, sample) mean across trials. -/
def averageData (e : Epochs) : Mat :=
  ⟨e.nChannels, e.nTimes,
    fun c t => (∑ i ∈ Finset.range e.nTrials, e.data i c t) / (e.nTrials : ℚ)⟩

/-- The resampled copy built by a bootstrap iteration: trial `i` of the
copy is trial `idx i` of the input (`epochs._data[indices, :, :]` after
`np.random.choice`; the drawn indices are the oracle `idx`). -/
def permuteEpochs (e : Epochs) (idx : ℕ → ℕ) : Epochs :=
  { e with data := fun i j k => e.data (idx i) j k }

/-- numpy broadcasting of a source array onto a (rows, cols) slice, for
the assignment `data[i, :, :] = ...`; only size-1 axes stretch. -/
def broadcastTo (rows cols : ℕ) (A : Mat) : Mat :=
  ⟨rows, cols, fun r c =>
    A.entry (if A.rows = 1 then 0 else r) (if A.cols = 1 then 0 else c)⟩

/-- Sort a list of rationals ascending. -/
def sortedVals (l : List ℚ) : List ℚ := l.insertionSort (fun a b => a ≤ b)

/-- `np.percentile` of a list at percentage `q`, with numpy's default
linear interpolation between order statistics. -/
def percentileOf (l : List ℚ) (q : ℚ) : ℚ :=
  let s := sortedVals l
  let h : ℚ := q / 100 * ((s.length : ℚ) - 1)
  let lo : ℕ := (⌊h⌋).toNat
  let a := s.getD lo 0
  let b := s.getD (lo + 1) a
  a + (h - (lo : ℚ)) * (b - a)

/-- `np.percentile(np.abs(data), q, axis=0)` over the bootstrap buffer:
per (component, sample) cell, the percentile of the absolute values
across the `nB` buffer rows. -/
def percMat (buf : ℕ → Mat) (nB rows cols : ℕ) (q : ℚ) : Mat :=
  ⟨rows, cols, fun c t => percentileOf ((List.range nB).map fun i => |(buf i).entry c t|) q⟩

/-- The dynamic value of the local variable `ci` in
`bootstrap_components`: a number on entry, rebound to a percentile pair
inside the loop body (the rebinding that breaks the second iteration). -/
inductive CiV where
  | num (q : ℚ)
  | pair (lo hi : ℚ)

/-- The mutable locals of the `bootstrap_components` loop: the
pre-allocated buffer, the current value of `ci`, and the
`ci_low`/`ci_up` pair once it has been assigned at least once. -/
structure BootState where
  buf : ℕ → Mat
  ci : CiV
  out : Option (Mat × Mat)

/-- One iteration of the `bootstrap_components` loop (source lines
113-122): resample, fit a fresh Evoked model with the hardcoded
`keep1=40, keep2=15` (the function's own `keep1`/`keep2` arguments are
ignored), project, average, write row `i` of the buffer (a broadcast
`ValueError` if the component count fits neither the slice nor a size-1
axis), then rebind `ci` to the percentile pair — a `TypeError` if `ci`
is already a pair from the previous iteration — and recompute the
percentiles. -/
def bootStep (eig : EigFn) (sq : ℚ → ℚ) (choose : ℕ → ℕ → ℕ) (e : Epochs)
    (nB keep2 : ℕ) (i : ℕ) (st : BootState) : Except Err BootState :=
  let perm := permuteEpochs e (choose i)
  match fitRun eig sq ⟨"evoked", none, none⟩ perm (some 40) (some 15) none none none true with
  | (_, some err) => .error err
  | (jd, none) =>
    match getComponents jd perm with
    | .error err => .error err
    | .ok comp =>
      let avg := averageData comp
      if (avg.rows = keep2 ∨ avg.rows = 1) ∧ (avg.cols = e.nTimes ∨ avg.cols = 1) then
        let buf' : ℕ → Mat := fun j => if j = i then broadcastTo keep2 e.nTimes avg else st.buf j
        match st.ci with
        | .pair _ _ => .error (.typeError "unsupported operand type for minus: int and tuple")
        | .num q =>
          let qlo := (1 - q) / 2 * 100
          let qhi := (1 - (1 - q) / 2) * 100
          .ok ⟨buf', .pair qlo qhi,
               some (percMat buf' nB keep2 e.nTimes qlo, percMat buf' nB keep2 e.nTimes qhi)⟩
      else .error (.valueError "could not broadcast input array")

/-- Run `count` loop iterations starting at index `i`, stopping at the
first raised exception. -/
def bootIter (step : ℕ → BootState → Except Err BootState) :
    ℕ → ℕ → BootState → Except Err BootState
  | _, 0, st => .ok st
  | i, c + 1, st =>
    match step i st with
    | .error err => .error err
    | .ok st' => bootIter step (i + 1) c st'

/-- `bootstrap_components(epochs, n_bootstrap, keep1, keep2, ci)` (source
lines 107-123).  `keep1` is never read by the body; `keep2` only sizes
the output buffer.  Returning `ci_low, ci_up` before any loop iteration
has assigned them is a `NameError`. -/
def bootstrapComponents (eig : EigFn) (sq : ℚ → ℚ) (choose : ℕ → ℕ → ℕ)
    (e : Epochs) (nB keep1 keep2 : ℕ) (ci : ℚ) : Except Err (Mat × Mat) :=
  let st0 : BootState := ⟨fun _ => Mat.zero keep2 e.nTimes, .num ci, none⟩
  match bootIter (bootStep eig sq choose e nB keep2) 0 nB st0 with
  | .error err => .error err
  | .ok st =>
    match st.out with
    | none => .error (.nameError "ci_low")
    | some p => .ok p

/-- Is a bootstrap result a normal return? -/
def okPairB (x : Except Err (Mat × Mat)) : Bool :=
  match x with
  | .ok _ => true
  | .error _ => false

/- Concrete inputs for the counterexamples and witnesses.  All of them
keep the stage covariances diagonal, so `diagEig` is the true
`np.linalg.eig` and `ratSqrt` is exact wherever its value matters. -/

/-- A fresh Evoked-mode model. -/
def mEv0 : JDModel := ⟨"evoked", none, none⟩

/-- A fresh Difference-mode model. -/
def mDf0 : JDModel := ⟨"difference", none, none⟩

/-- One trial, one channel, one sample, value 1; two event types. -/
def epo1 : Epochs :=
  ⟨1, 1, 1, fun _ _ _ => 1, [("a", 1), ("b", 2)], fun _ => 1, 1⟩

/-- Difference-mode example for C1: two trials in the order (condition b,
condition a), with channel values 5 and 7 — so the condition-a subset is
`[7]`, the condition-b subset is `[5]`, the raw tensor flattens to
`(5, 7)`, and the spec-claimed concatenation A++B would flatten to
`(7, 5)`. -/
def epoD : Epochs :=
  ⟨2, 1, 1, fun i _ _ => if i = 0 then 5 else 7, [("a", 1), ("b", 2)],
   fun i => if i = 0 then 2 else 1, 1⟩

/-- Evoked-mode example for C2: one trial, one channel, two samples with
the perfectly linear series (1, 2), whose linear detrend is (0, 0). -/
def epoT : Epochs :=
  ⟨1, 1, 2, fun _ _ t => if t = 0 then 1 else 2, [("a", 1)], fun _ => 1, 1⟩

/-- Example for C3: two trials, two channels, one sample, with
channel-diagonal data so that `C0 = diag(1, 4)`. -/
def epoC3 : Epochs :=
  ⟨2, 2, 1, fun i j _ => if i = 0 ∧ j = 0 then 1 else if i = 1 ∧ j = 1 then 2 else 0,
   [("a", 1), ("b", 2)], fun i => if i = 0 then 1 else 2, 1⟩

/-- The matrix of `epoC3`'s flattened data, used directly against
`transform`: `X^T X = diag(1, 4)`. -/
def matC3 : Mat :=
  ⟨2, 2, fun i j => if i = 0 ∧ j = 0 then 1 else if i = 1 ∧ j = 1 then 2 else 0⟩

/-- First fit input for C4: conditions a/b on trials with values 1 and 0;
every covariance along the way is the 1x1 matrix [[1]], so the fitted
unmixing and mixing are both [[1]]. -/
def epoA : Epochs :=
  ⟨2, 1, 1, fun i _ _ => if i = 0 then 1 else 0, [("a", 1), ("b", 2)],
   fun i => if i = 0 then 1 else 2, 1⟩

/-- Second fit input for C4: values 2 and 0, so the stage-1 covariance is
[[4]] and the stage-1 unmixing is [[1/2]] (sqrt(1/4) = 1/2 exactly). -/
def epoB : Epochs :=
  ⟨2, 1, 1, fun i _ _ => if i = 0 then 2 else 0, [("a", 1), ("b", 2)],
   fun i => if i = 0 then 1 else 2, 1⟩

/-- The Difference-mode model after the successful fit on `epoA`. -/
def mFitted : JDModel :=
  (fitRun diagEig ratSqrt mDf0 epoA none none none (some "a") (some "b") true).1

/-- Bootstrap example for C7: one trial, two channels, one sample. -/
def epoC7 : Epochs :=
  ⟨1, 2, 1, fun _ j _ => if j = 0 then 1 else 0, [("a", 1)], fun _ => 1, 1⟩

/-- Bootstrap example for the C10 witness: one channel, so the inner
hardcoded fit retains min(15, min(40, 1)) = 1 component. -/
def epoW1 : Epochs :=
  ⟨1, 1, 1, fun _ _ _ => 1, [("a", 1)], fun _ => 1, 1⟩

/-- A degenerate resampling oracle: always draw trial 0. -/
def chooseZ : ℕ → ℕ → ℕ := fun _ _ => 0

/-- The entry (i, j) of the stored unmixing matrix, if fitted. -/
def unmixEntry (m : JDModel) (i j : ℕ) : Option ℚ :=
  m.unmixing.map fun W => W.entry i j

/-- Two matrices with the same shape and the same entry function are equal. -/
theorem Mat.ext2 (A B : Mat) (hr : A.rows = B.rows) (hc : A.cols = B.cols)
    (he : A.entry = B.entry) : A = B := by
  cases A
  cases B
  simp only at hr hc he
  subst hr hc he
  rfl

/-- Associativity of the embedded matrix product (the inner sums are over
the advertised column counts, so this holds for all shapes). -/
theorem Mat.mul_assoc2 (A B C : Mat) : (A.mul B).mul C = A.mul (B.mul C) := by
  apply Mat.ext2
  · rfl
  · rfl
  · funext i j
    simp only [Mat.mul, Finset.sum_mul, Finset.mul_sum]
    rw [Finset.sum_comm]
    exact Finset.sum_congr rfl fun k _ => Finset.sum_congr rfl fun l _ => by ring

/-- `argsortTake` returns `min keep n` indices: numpy's slice clamps. -/
theorem argsortTake_length (n keep : ℕ) (v : ℕ → ℚ) :
    (argsortTake n keep v).length = min keep n := by
  simp [argsortTake, List.length_take]

/-- `_transform` never raises for shape-compatible inputs: whatever the
`keep` arguments and whatever the eigenvalues, it returns a triple whose
stage-1 retention is clamped to `min keep1 X.cols` and whose stage-2
retention is clamped to `min keep2 (min keep1 X.cols)`. -/
theorem transform_ok (eig : EigFn) (sq : ℚ → ℚ) (X L : Mat) (keep1 keep2 : ℕ)
    (h : L.cols = X.rows) :
    ∃ P N Q, transform eig sq X L keep1 keep2 = .ok (P, N, Q) ∧
      P.rows = X.cols ∧ P.cols = min keep1 X.cols ∧
      N.rows = min keep1 X.cols ∧ N.cols = min keep1 X.cols ∧
      Q.rows = min keep1 X.cols ∧ Q.cols = min keep2 (min keep1 X.cols) := by
  unfold transform
  rw [if_pos h]
  exact ⟨_, _, _, rfl, rfl,
    by simp [argsortTake_length, Mat.mul, Mat.transpose],
    by simp [argsortTake_length, Mat.mul, Mat.transpose],
    by simp [argsortTake_length, Mat.mul, Mat.transpose],
    by simp [argsortTake_length, Mat.mul, Mat.transpose],
    by simp [argsortTake_length, Mat.mul, Mat.transpose]⟩


/-- The stage-1 eigensolver call of `fit` always returns normally (its
bias filter is the identity tiling, whose column count matches the
flattened data by construction), with the retention clamps of
`transform_ok` expressed in terms of the channel count. -/
theorem stage1_ok (eig : EigFn) (sq : ℚ → ℚ) (e : Epochs) (keep1 keep2 : ℕ) :
    ∃ P N Q, stage1 eig sq e keep1 keep2 = .ok (P, N, Q) ∧
      P.rows = e.nChannels ∧ P.cols = min keep1 e.nChannels ∧
      N.rows = min keep1 e.nChannels ∧ N.cols = min keep1 e.nChannels ∧
      Q.rows = min keep1 e.nChannels ∧ Q.cols = min keep2 (min keep1 e.nChannels) := by
  obtain ⟨P, N, Q, hT, h1, h2, h3, h4, h5, h6⟩ :=
    transform_ok eig sq (stage1Data e) (tileId e.nTimes e.nTrials) keep1 keep2 rfl
  exact ⟨P, N, Q, hT, h1, h2, h3, h4, h5, h6⟩

/-- An Evoked-mode `fit` always succeeds, replacing the stored matrices
by the stage-1 pair; the fitted unmixing has one row per channel and
`min keep2 (min keep1 nChannels)` columns, and the mixing is its
shape-transpose. -/
theorem fitRun_evoked_eq (eig : EigFn) (sq : ℚ → ℚ) (m : JDModel) (e : Epochs)
    (k1? k2? k3? : Option ℕ) (c1? c2? : Option String) (dt : Bool)
    (hkind : m.kind = "evoked") :
    ∃ W M, fitRun eig sq m e k1? k2? k3? c1? c2? dt =
        ({ m with unmixing := some W, mixing := some M }, none) ∧
      W.rows = e.nChannels ∧
      W.cols = min (k2?.getD (k1?.getD e.nChannels)) (min (k1?.getD e.nChannels) e.nChannels) ∧
      M.rows = W.cols ∧ M.cols = e.nChannels := by
  obtain ⟨P, N, Q, hS, hPr, hPc, hNr, hNc, hQr, hQc⟩ :=
    stage1_ok eig sq e (k1?.getD e.nChannels) ((k2?.getD (k1?.getD e.nChannels)))
  refine ⟨(P.mul N).mul Q, (Q.transpose.mul (diagInvDiag N)).mul P.transpose, ?_, ?_, ?_, ?_, ?_⟩
  · cases dt <;>
      simp [fitRun, inferConds, deadWorkingData, deadDetrended, hkind, hS]
  · simp [Mat.mul, hPr]
  · simp [Mat.mul, hQc]
  · simp [Mat.mul, Mat.transpose]
  · simp [Mat.mul, Mat.transpose, hPr]

/- Batteries marks the rational-number operations `@[irreducible]`, which
blocks kernel evaluation inside `decide`; re-expose them so concrete
runs of the embedded code can be checked by evaluation. -/
unseal Rat.add Rat.mul Rat.inv Rat.sub

/-- C1: counterevidence for the claim that in Difference mode the stage-1
eigensolver input is built from the concatenation of the condition-A and
condition-B trial subsets.  On `epoD` (trial order: condition b then
condition a, channel values 5 then 7) the condition-a subset reads `[7]`
and the condition-b subset `[5]`, so the claimed solver input would read
`(7, 5)`; the working array the code builds at source line 40
concatenates condition a with itself, reading `(7, 7)`; and even that
array is dead — the matrix actually handed to `_transform` is the
flattened full raw tensor, reading `(5, 7)` — while the whole
Difference-mode fit completes without error. -/
theorem claimC1_stage1_ignores_selection :
    ((deadWorkingData epoD "difference" (some "a")).map fun x? =>
      x?.map fun T => (T.entry 0 0 0, T.entry 1 0 0)) = .ok (some (7, 7)) ∧
    (stage1Data epoD).entry 0 0 = 5 ∧ (stage1Data epoD).entry 1 0 = 7 ∧
    ((epoD.get (some "a")).map fun s => s.data 0 0 0) = .ok 7 ∧
    ((epoD.get (some "b")).map fun s => s.data 0 0 0) = .ok 5 ∧
    (fitRun diagEig ratSqrt mDf0 epoD none none none (some "a") (some "b") true).2 = none ∧
    ((5 : ℚ), (7 : ℚ)) ≠ (7, 5) := by
  refine ⟨by decide, by decide, by decide, by decide, by decide, by decide, by decide⟩

/-- C2: counterevidence for the claim that with detrending enabled the
per-trial, per-channel linearly detrended data reaches the stage-1
eigensolver.  On `epoT` (one trial, one channel, the linear series
`(1, 2)`) the detrended series is `(0, 0)`, but the solver input reads
the raw `(1, 2)` — the detrended array is discarded when `X` is rebound
at source line 45 — and `fit` computes exactly the same result with
detrending on and off. -/
theorem claimC2_detrend_discarded :
    (stage1Data epoT).entry 0 0 = 1 ∧ (stage1Data epoT).entry 1 0 = 2 ∧
    (flattenTen (detrend3 epoT.dataTen)).entry 0 0 = 0 ∧
    (flattenTen (detrend3 epoT.dataTen)).entry 1 0 = 0 ∧
    fitRun diagEig ratSqrt mEv0 epoT none none none none none true =
      fitRun diagEig ratSqrt mEv0 epoT none none none none none false ∧
    (fitRun diagEig ratSqrt mEv0 epoT none none none none none true).2 = none := by
  exact ⟨by decide, by decide, by decide, by decide, rfl, by decide⟩

/-- C3: counterexample.  The claim asserts that `_transform` raises a
domain error whenever `keep1` exceeds the available rank, and in
particular that `fit` with `keep1` greater than the channel count raises
a numerical error.  At `matC3` (2 channels, covariance `diag(1, 4)`)
with `keep1 = 3` the call returns normally with retention clamped to 2
columns, and `fit` with `keep1 = 3` on the 2-channel `epoC3` succeeds. -/
theorem claimC3_cex :
    ((transform diagEig ratSqrt matC3 (tileId 2 1) 3 1).map fun t =>
      (t.1.cols, t.2.2.cols)) = .ok (2, 1) ∧
    (fitRun diagEig ratSqrt mEv0 epoC3 (some 3) none none none none true).2 = none := by
  exact ⟨by decide, by decide⟩

/-- C3 (amended): for every shape-compatible input, `_transform` returns
normally whatever the `keep` arguments and whatever the eigenvalues: the
stage-1 retention is silently clamped to `min keep1 X.cols` and the
stage-2 retention to `min keep2 (min keep1 X.cols)`; no domain error is
raised for excessive `keep` values or non-positive eigenvalues. -/
theorem claimC3_amended (eig : EigFn) (sq : ℚ → ℚ) (X L : Mat) (keep1 keep2 : ℕ)
    (h : L.cols = X.rows) :
    ∃ P N Q, transform eig sq X L keep1 keep2 = .ok (P, N, Q) ∧
      P.rows = X.cols ∧ P.cols = min keep1 X.cols ∧
      N.rows = min keep1 X.cols ∧ N.cols = min keep1 X.cols ∧
      Q.rows = min keep1 X.cols ∧ Q.cols = min keep2 (min keep1 X.cols) :=
  transform_ok eig sq X L keep1 keep2 h

/-- C3 (witness): the amended statement instantiated at the concrete
counterexample input. -/
theorem claimC3_amended_witness :
    ∃ P N Q, transform diagEig ratSqrt matC3 (tileId 2 1) 3 1 = .ok (P, N, Q) ∧
      P.rows = matC3.cols ∧ P.cols = min 3 matC3.cols ∧
      N.rows = min 3 matC3.cols ∧ N.cols = min 3 matC3.cols ∧
      Q.rows = min 3 matC3.cols ∧ Q.cols = min 1 (min 3 matC3.cols) :=
  claimC3_amended diagEig ratSqrt matC3 (tileId 2 1) 3 1 (by decide)

/-- C8: counterexample.  The claim asserts that `get_components` on a
never-fitted model raises the precondition domain error "model not
fitted".  It actually raises the `TypeError` coming from
`X @ self.unmixing` with `self.unmixing = None`, which is not that
domain error. -/
theorem claimC8_cex :
    getComponents mEv0 epo1 =
      .error (.typeError "unsupported operand type for matmul: ndarray and NoneType") ∧
    Err.typeError "unsupported operand type for matmul: ndarray and NoneType" ≠
      Err.valueError "model not fitted" := by
  exact ⟨rfl, by decide⟩

/-- C8 (amended): on a model whose `unmixing` is still `None` (fit has
never succeeded), both `get_components` and `reproject_components` do
raise — but a `TypeError` from multiplying by `None`, not a dedicated
"model not fitted" domain error. -/
theorem claimC8_amended (m : JDModel) (e : Epochs) (h : m.unmixing = none) :
    getComponents m e =
      .error (.typeError "unsupported operand type for matmul: ndarray and NoneType") ∧
    reprojectComponents m e =
      .error (.typeError "unsupported operand type for matmul: ndarray and NoneType") := by
  constructor
  · simp [getComponents, h]
  · simp [reprojectComponents, h]

/-- C8 (witness): the amended statement at a fresh Evoked model. -/
theorem claimC8_amended_witness :
    getComponents mEv0 epo1 =
      .error (.typeError "unsupported operand type for matmul: ndarray and NoneType") ∧
    reprojectComponents mEv0 epo1 =
      .error (.typeError "unsupported operand type for matmul: ndarray and NoneType") :=
  claimC8_amended mEv0 epo1 rfl

/-- A small already-fitted model used as a witness input. -/
def mSimple : JDModel := ⟨"evoked", some (Mat.zero 1 1), some (Mat.zero 1 1)⟩

/-- C4: counterexample.  `mFitted` is the state after a successful
Difference-mode fit on `epoA`; its stored unmixing reads `[[1]]`.  A
subsequent fit on `epoB` naming the unknown condition `"c"` raises
`KeyError` — but only after the stage-1 assignments have replaced the
stored matrices: afterwards the stored unmixing reads `[[1/2]]` (the
stage-1 whitening of the new data), not the earlier fit's `[[1]]`.  So a
failed fit can leave partially mutated state. -/
theorem claimC4_cex :
    (fitRun diagEig ratSqrt mDf0 epoA none none none (some "a") (some "b") true).2 = none ∧
    unmixEntry mFitted 0 0 = some 1 ∧
    (fitRun diagEig ratSqrt mFitted epoB none none none (some "a") (some "c") true).2 =
      some (.keyError "c") ∧
    unmixEntry (fitRun diagEig ratSqrt mFitted epoB none none none
      (some "a") (some "c") true).1 0 0 = some (1/2) ∧
    some ((1 : ℚ)/2) ≠ some (1 : ℚ) := by
  exact ⟨by decide, by decide, by decide, by decide, by decide⟩

/-- C4 (amended): a `fit` that fails before the stage-1 assignments does
leave previously fitted state untouched: in Difference mode an unknown
`condition1` label fails at the working-data selection and returns the
model unchanged, and an ambiguous condition set fails at the inference
check and returns the model unchanged.  The counterexample shows the
guarantee does not extend to failures raised after stage 1 (an unknown
`condition2` label). -/
theorem claimC4_amended (eig : EigFn) (sq : ℚ → ℚ) (m : JDModel) (e : Epochs)
    (k1? k2? k3? : Option ℕ) (c2? : Option String) (dt : Bool) (c : String)
    (hkind : m.kind = "difference") :
    (e.eventId.lookup c = none →
      fitRun eig sq m e k1? k2? k3? (some c) c2? dt = (m, some (.keyError c))) ∧
    (e.eventId.length ≠ 2 →
      fitRun eig sq m e k1? k2? k3? none none dt =
        (m, some (.valueError "If conditions are not specified, epochs must contain exactly two types of events!"))) := by
  constructor
  · intro hl
    simp [fitRun, inferConds, deadWorkingData, hkind, Epochs.get, hl]
  · intro hlen
    simp [fitRun, inferConds, hkind, hlen]

/-- C4 (witness): the state-preserving failure case at a concrete input:
a fresh Difference model, `epoB`, and the unknown label "zzz". -/
theorem claimC4_amended_witness :
    fitRun diagEig ratSqrt mDf0 epoB none none none (some "zzz") (some "b") true =
      (mDf0, some (.keyError "zzz")) :=
  (claimC4_amended diagEig ratSqrt mDf0 epoB none none none (some "b") true "zzz" rfl).1
    (by decide)

/-- C5: CONFIRMED.  For every fitted model and every epochs input,
`reproject_components` returns exactly the input flattened by the
section-4.2 convention, multiplied by unmixing and then by mixing, and
reshaped back — equivalently (by associativity of the matrix product)
the single combined linear map `unmixing * mixing` applied to the
flattened data, with no other processing. -/
theorem claimC5_reproject (m : JDModel) (e : Epochs) (U M : Mat)
    (hU : m.unmixing = some U) (hM : m.mixing = some M) :
    reprojectComponents m e = .ok (reprojectSpec U M e) := by
  obtain ⟨k, u, mx⟩ := m
  simp only at hU hM
  subst hU hM
  simp [reprojectComponents, reprojectSpec, Mat.mul_assoc2]

/-- C5 (witness): the reprojection refinement at a concrete fitted model. -/
theorem claimC5_reproject_witness :
    reprojectComponents mSimple epo1 = .ok (reprojectSpec (Mat.zero 1 1) (Mat.zero 1 1) epo1) :=
  claimC5_reproject mSimple epo1 (Mat.zero 1 1) (Mat.zero 1 1) rfl rfl

/-- C6: CONFIRMED.  For every model fitted in Evoked mode with
`keep2 = k` (where `k` is at most `keep1`, which is at most the training
channel count — the in-range configuration the spec describes), and
every input with matching channel count, `get_components` returns a
(n_trials, k, n_samples) tensor and `reproject_components` returns a
(n_trials, n_channels, n_samples) tensor. -/
theorem claimC6_shapes (eig : EigFn) (sq : ℚ → ℚ) (m : JDModel) (e e2 : Epochs)
    (k1? : Option ℕ) (k : ℕ) (k3? : Option ℕ) (c1? c2? : Option String) (dt : Bool)
    (hkind : m.kind = "evoked")
    (hk : k ≤ k1?.getD e.nChannels) (hk1 : k1?.getD e.nChannels ≤ e.nChannels)
    (hch : e2.nChannels = e.nChannels) :
    ((getComponents (fitRun eig sq m e k1? (some k) k3? c1? c2? dt).1 e2).map
      fun o => (o.nTrials, o.nChannels, o.nTimes)) = .ok (e2.nTrials, k, e2.nTimes) ∧
    ((reprojectComponents (fitRun eig sq m e k1? (some k) k3? c1? c2? dt).1 e2).map
      fun o => (o.nTrials, o.nChannels, o.nTimes)) =
        .ok (e2.nTrials, e2.nChannels, e2.nTimes) := by
  obtain ⟨W, M, hfit, hWr, hWc, hMr, hMc⟩ :=
    fitRun_evoked_eq eig sq m e k1? (some k) k3? c1? c2? dt hkind
  rw [hfit]
  have hWc' : W.cols = k := by
    rw [hWc]
    simp only [Option.getD_some]
    omega
  constructor
  · simp [getComponents, Mat.mul, unflatten, hWc', Except.map]
  · simp [reprojectComponents, Mat.mul, unflatten, hMc, hch, Except.map]

/-- C6 (witness): the shape invariants at a concrete evoked fit with
one channel and `keep2 = 1`. -/
theorem claimC6_shapes_witness :
    ((getComponents (fitRun diagEig ratSqrt mEv0 epo1 none (some 1) none none none true).1
        epo1).map fun o => (o.nTrials, o.nChannels, o.nTimes)) =
      .ok (epo1.nTrials, 1, epo1.nTimes) ∧
    ((reprojectComponents (fitRun diagEig ratSqrt mEv0 epo1 none (some 1) none none none true).1
        epo1).map fun o => (o.nTrials, o.nChannels, o.nTimes)) =
      .ok (epo1.nTrials, epo1.nChannels, epo1.nTimes) :=
  claimC6_shapes diagEig ratSqrt mEv0 epo1 epo1 none 1 none none none true rfl
    (by decide) (by decide) rfl

/-- C9: CONFIRMED.  After every successful `fit`, unmixing and mixing are
both defined and mutually consistent: the unmixing has one row per
training channel, the mixing one column per training channel, the
unmixing column count equals the mixing row count (the shared final
retained dimension), and both are composed from the same eigenbasis
triple(s) produced by that fit call — the stage-1 triple alone outside
Difference mode, and the stage-1 triple composed with the stage-2 triple
of the same call in Difference mode. -/
theorem claimC9_fitted_consistency (eig : EigFn) (sq : ℚ → ℚ) (m : JDModel) (e : Epochs)
    (k1? k2? k3? : Option ℕ) (c1? c2? : Option String) (dt : Bool)
    (r : JDModel × Option Err)
    (hr : fitRun eig sq m e k1? k2? k3? c1? c2? dt = r) (hok : r.2 = none) :
    r.1.unmixing.map Mat.rows = some e.nChannels ∧
    r.1.mixing.map Mat.cols = some e.nChannels ∧
    r.1.unmixing.map Mat.cols = r.1.mixing.map Mat.rows ∧
    ∃ P N Q, stage1 eig sq e (k1?.getD e.nChannels) (k2?.getD (k1?.getD e.nChannels)) =
        .ok (P, N, Q) ∧
      ((m.kind ≠ "difference" ∧
          r.1.unmixing = some ((P.mul N).mul Q) ∧
          r.1.mixing = some ((Q.transpose.mul (diagInvDiag N)).mul P.transpose)) ∨
       (m.kind = "difference" ∧ ∃ P2 N2 Q2 L2,
          transform eig sq ((stage1Data e).mul ((P.mul N).mul Q)) L2
            (k2?.getD (k1?.getD e.nChannels))
            (k3?.getD (k2?.getD (k1?.getD e.nChannels))) = .ok (P2, N2, Q2) ∧
          r.1.unmixing = some (((((P.mul N).mul Q).mul P2).mul N2).mul Q2) ∧
          r.1.mixing = some (((Q2.transpose.mul (diagInvDiag N2)).mul P2.transpose).mul
            ((Q.transpose.mul (diagInvDiag N)).mul P.transpose)))) := by
  subst hr
  obtain ⟨P, N, Q, hS, hPr, hPc, hNr, hNc, hQr, hQc⟩ :=
    stage1_ok eig sq e (k1?.getD e.nChannels) (k2?.getD (k1?.getD e.nChannels))
  rcases hI : inferConds e m.kind c1? c2? with err | c12
  · simp [fitRun, hI] at hok
  obtain ⟨c1r, c2r⟩ := c12
  rcases hW : deadWorkingData e m.kind c1r with err | x?
  · simp [fitRun, hI, hW] at hok
  rcases hD : deadDetrended x? dt with err | xd
  · simp [fitRun, hI, hW, hD] at hok
  by_cases hkind : m.kind = "difference"
  · rw [hkind] at hI hW
    rcases hA : e.get c1r with err | eA
    · simp [fitRun, hI, hW, hD, hS, hkind, hA] at hok
    rcases hB : e.get c2r with err | eB
    · simp [fitRun, hI, hW, hD, hS, hkind, hA, hB] at hok
    rcases hT2 : transform eig sq ((stage1Data e).mul ((P.mul N).mul Q))
        (signedTile e.nTimes eA.nTrials eB.nTrials) (k2?.getD (k1?.getD e.nChannels))
        (k3?.getD (k2?.getD (k1?.getD e.nChannels))) with err | PNQ2
    · simp [fitRun, hI, hW, hD, hS, hkind, hA, hB, hT2] at hok
    obtain ⟨P2, N2, Q2⟩ := PNQ2
    have hfit : fitRun eig sq m e k1? k2? k3? c1? c2? dt =
        ({ m with
            unmixing := some (((((P.mul N).mul Q).mul P2).mul N2).mul Q2),
            mixing := some (((Q2.transpose.mul (diagInvDiag N2)).mul P2.transpose).mul
              ((Q.transpose.mul (diagInvDiag N)).mul P.transpose)) }, none) := by
      simp [fitRun, hI, hW, hD, hS, hkind, hA, hB, hT2]
    rw [hfit]
    refine ⟨?_, ?_, ?_, P, N, Q, hS, Or.inr ⟨hkind, P2, N2, Q2,
      signedTile e.nTimes eA.nTrials eB.nTrials, hT2, rfl, rfl⟩⟩
    · simp [Mat.mul, hPr]
    · simp [Mat.mul, Mat.transpose, hPr]
    · simp [Mat.mul, Mat.transpose]
  · have hfit : fitRun eig sq m e k1? k2? k3? c1? c2? dt =
        ({ m with
            unmixing := some ((P.mul N).mul Q),
            mixing := some ((Q.transpose.mul (diagInvDiag N)).mul P.transpose) }, none) := by
      simp [fitRun, hI, hW, hD, hS, hkind]
    rw [hfit]
    refine ⟨?_, ?_, ?_, P, N, Q, hS, Or.inl ⟨hkind, rfl, rfl⟩⟩
    · simp [Mat.mul, hPr]
    · simp [Mat.mul, Mat.transpose, hPr]
    · simp [Mat.mul, Mat.transpose]

/-- When the loop variable `ci` still holds a number (first iteration)
and the hardcoded inner fit's component count `min 15 (min 40 nChannels)`
matches the buffer row count, a bootstrap iteration succeeds and leaves
`ci` rebound to a percentile pair with `ci_low`/`ci_up` assigned. -/
theorem bootStep_num (eig : EigFn) (sq : ℚ → ℚ) (choose : ℕ → ℕ → ℕ) (e : Epochs)
    (nB keep2 : ℕ) (i : ℕ) (st : BootState) (q : ℚ) (hci : st.ci = .num q)
    (hk : min 15 (min 40 e.nChannels) = keep2) :
    ∃ st', bootStep eig sq choose e nB keep2 i st = .ok st' ∧
      (∃ a b, st'.ci = .pair a b) ∧ st'.out.isSome = true := by
  obtain ⟨W, M, hfit, hWr, hWc, hMr, hMc⟩ :=
    fitRun_evoked_eq eig sq ⟨"evoked", none, none⟩ (permuteEpochs e (choose i))
      (some 40) (some 15) none none none true rfl
  have hW15 : W.cols = keep2 := by
    rw [hWc]
    simpa [permuteEpochs] using hk
  obtain ⟨comp, hcomp, hchan, htimes⟩ :
      ∃ comp, getComponents ⟨"evoked", some W, some M⟩ (permuteEpochs e (choose i)) = .ok comp ∧
        comp.nChannels = W.cols ∧ comp.nTimes = e.nTimes := ⟨_, rfl, rfl, rfl⟩
  simp only [bootStep, hfit, hcomp, hci]
  rw [if_pos ⟨Or.inl (hchan.trans hW15), Or.inl htimes⟩]
  exact ⟨_, rfl, ⟨_, _, rfl⟩, rfl⟩

/-- After the first iteration `ci` is a pair, and the next iteration's
arithmetic `(1 - ci) / 2` raises a `TypeError` (assuming the write into
the buffer row, which comes first, still succeeds). -/
theorem bootStep_pair (eig : EigFn) (sq : ℚ → ℚ) (choose : ℕ → ℕ → ℕ) (e : Epochs)
    (nB keep2 : ℕ) (i : ℕ) (st : BootState) (a b : ℚ) (hci : st.ci = .pair a b)
    (hk : min 15 (min 40 e.nChannels) = keep2) :
    bootStep eig sq choose e nB keep2 i st =
      .error (.typeError "unsupported operand type for minus: int and tuple") := by
  obtain ⟨W, M, hfit, hWr, hWc, hMr, hMc⟩ :=
    fitRun_evoked_eq eig sq ⟨"evoked", none, none⟩ (permuteEpochs e (choose i))
      (some 40) (some 15) none none none true rfl
  have hW15 : W.cols = keep2 := by
    rw [hWc]
    simpa [permuteEpochs] using hk
  obtain ⟨comp, hcomp, hchan, htimes⟩ :
      ∃ comp, getComponents ⟨"evoked", some W, some M⟩ (permuteEpochs e (choose i)) = .ok comp ∧
        comp.nChannels = W.cols ∧ comp.nTimes = e.nTimes := ⟨_, rfl, rfl, rfl⟩
  simp only [bootStep, hfit, hcomp, hci]
  rw [if_pos ⟨Or.inl (hchan.trans hW15), Or.inl htimes⟩]

/-- C9 (witness): the fitted-state consistency at a concrete evoked fit. -/
theorem claimC9_fitted_consistency_witness :
    (fitRun diagEig ratSqrt mEv0 epo1 none none none none none true).1.unmixing.map Mat.rows =
      some epo1.nChannels ∧
    (fitRun diagEig ratSqrt mEv0 epo1 none none none none none true).1.mixing.map Mat.cols =
      some epo1.nChannels ∧
    (fitRun diagEig ratSqrt mEv0 epo1 none none none none none true).1.unmixing.map Mat.cols =
      (fitRun diagEig ratSqrt mEv0 epo1 none none none none none true).1.mixing.map Mat.rows ∧
    ∃ P N Q, stage1 diagEig ratSqrt epo1 epo1.nChannels epo1.nChannels = .ok (P, N, Q) ∧
      ((mEv0.kind ≠ "difference" ∧
          (fitRun diagEig ratSqrt mEv0 epo1 none none none none none true).1.unmixing =
            some ((P.mul N).mul Q) ∧
          (fitRun diagEig ratSqrt mEv0 epo1 none none none none none true).1.mixing =
            some ((Q.transpose.mul (diagInvDiag N)).mul P.transpose)) ∨
       (mEv0.kind = "difference" ∧ ∃ P2 N2 Q2 L2,
          transform diagEig ratSqrt ((stage1Data epo1).mul ((P.mul N).mul Q)) L2
            epo1.nChannels epo1.nChannels = .ok (P2, N2, Q2) ∧
          (fitRun diagEig ratSqrt mEv0 epo1 none none none none none true).1.unmixing =
            some (((((P.mul N).mul Q).mul P2).mul N2).mul Q2) ∧
          (fitRun diagEig ratSqrt mEv0 epo1 none none none none none true).1.mixing =
            some (((Q2.transpose.mul (diagInvDiag N2)).mul P2.transpose).mul
              ((Q.transpose.mul (diagInvDiag N)).mul P.transpose)))) :=
  claimC9_fitted_consistency diagEig ratSqrt mEv0 epo1 none none none none none true
    (fitRun diagEig ratSqrt mEv0 epo1 none none none none none true) rfl (by decide)

/-- C10: CONFIRMED.  Provided the hardcoded inner fit's component count
`min 15 (min 40 nChannels)` matches the buffer row count `keep2` (so
that the per-iteration buffer write itself succeeds, as in the intended
usage), `bootstrap_components` returns normally only for
`n_bootstrap = 1`: for every `n_bootstrap ≥ 2` it raises the `TypeError`
caused by the rebinding of `ci` to a percentile pair inside the loop
body (the second iteration computes `(1 - ci)/2` on a tuple), and for
`n_bootstrap = 0` it raises a `NameError` because the returned names
`ci_low`/`ci_up` were never assigned. -/
theorem claimC10_bootstrap (eig : EigFn) (sq : ℚ → ℚ) (choose : ℕ → ℕ → ℕ) (e : Epochs)
    (n keep1 keep2 : ℕ) (ci : ℚ)
    (hk : min 15 (min 40 e.nChannels) = keep2) :
    (2 ≤ n → bootstrapComponents eig sq choose e n keep1 keep2 ci =
      .error (.typeError "unsupported operand type for minus: int and tuple")) ∧
    okPairB (bootstrapComponents eig sq choose e 1 keep1 keep2 ci) = true ∧
    bootstrapComponents eig sq choose e 0 keep1 keep2 ci =
      .error (.nameError "ci_low") := by
  refine ⟨?_, ?_, ?_⟩
  · intro hn
    obtain ⟨k, rfl⟩ : ∃ k, n = k + 2 := ⟨n - 2, by omega⟩
    obtain ⟨st1, h0, ⟨a, b, hpair⟩, _⟩ := bootStep_num eig sq choose e (k + 2) keep2 0
      ⟨fun _ => Mat.zero keep2 e.nTimes, .num ci, none⟩ ci rfl hk
    have h1 := bootStep_pair eig sq choose e (k + 2) keep2 1 st1 a b hpair hk
    rw [show k + 2 = (k + 1) + 1 from rfl]
    simp only [bootstrapComponents, bootIter, h0, Nat.zero_add, h1]
  · obtain ⟨st1, h0, _, hout⟩ := bootStep_num eig sq choose e 1 keep2 0
      ⟨fun _ => Mat.zero keep2 e.nTimes, .num ci, none⟩ ci rfl hk
    obtain ⟨p, hp⟩ := Option.isSome_iff_exists.mp hout
    rw [show (1 : ℕ) = 0 + 1 from rfl]
    simp only [bootstrapComponents, bootIter, h0, hp, okPairB]
  · simp [bootstrapComponents, bootIter]

/-- C10 (witness): the statement at a concrete one-channel input, where
the hardcoded fit retains exactly one component. -/
theorem claimC10_bootstrap_witness :
    (2 ≤ 2 → bootstrapComponents diagEig ratSqrt chooseZ epoW1 2 5 1 (19/20) =
      .error (.typeError "unsupported operand type for minus: int and tuple")) ∧
    okPairB (bootstrapComponents diagEig ratSqrt chooseZ epoW1 1 5 1 (19/20)) = true ∧
    bootstrapComponents diagEig ratSqrt chooseZ epoW1 0 5 1 (19/20) =
      .error (.nameError "ci_low") :=
  claimC10_bootstrap diagEig ratSqrt chooseZ epoW1 2 5 1 (19/20) (by decide)

/-- C7: counterevidence.  The claim says each bootstrap iteration fits
with the supplied `keep1` and `keep2` and that the returned percentile
arrays have shape `(keep2, n_samples)`.  On the 2-channel `epoC7` with
`n_resamples = 1`, `keep1 = 2`, `keep2 = 1`: had the iteration fitted
with the supplied values it would retain one component and succeed, but
the loop body hardcodes `keep1=40, keep2=15`, so the fit retains
`min(15, min(40, 2)) = 2` components and the write of a (2, 1) average
into the (1, 1) buffer row raises a broadcast `ValueError` — nothing is
returned.  Moreover the supplied `keep1` is never read at all: changing
it to 99 gives the identical computation. -/
theorem claimC7_hardcoded_keeps :
    bootstrapComponents diagEig ratSqrt chooseZ epoC7 1 2 1 (19/20) =
      .error (.valueError "could not broadcast input array") ∧
    bootstrapComponents diagEig ratSqrt chooseZ epoC7 1 99 1 (19/20) =
      bootstrapComponents diagEig ratSqrt chooseZ epoC7 1 2 1 (19/20) ∧
    min 15 (min 40 epoC7.nChannels) = 2 := by
  exact ⟨rfl, rfl, by decide⟩
